import Mathlib

/-!
Verification of the query-building and response-shaping layer of the
cognitive-search-engine repository (`geoss_search/elastic.py` and
`geoss_search/api/routers/search.py`), via a shallow embedding of the
Python code into Lean.

JSON-like values exchanged with the search engine are modelled by `JVal`.
Python dictionaries are modelled as insertion-ordered association lists
(`List (String × JVal)`); a Python dictionary never contains a duplicate
key, so assignment `d[k] = v` is modelled exactly by replacing the first
occurrence of `k` in place, or appending `(k, v)` when `k` is absent.
Numbers are modelled by `Rat` (the ints and floats appearing in payloads),
and fallible Python code (KeyError, TypeError, …) by `Except String`.
-/

/-- A JSON-like value: the payloads and responses handled by the code. -/
inductive JVal where
  | str : String → JVal
  | num : Rat → JVal
  | boolean : Bool → JVal
  | null : JVal
  | arr : List JVal → JVal
  | obj : List (String × JVal) → JVal

/-- Python `d[k] = v` on an insertion-ordered dictionary: overwrite in
place when the key is present, append otherwise. -/
def setKey : List (String × JVal) → String → JVal → List (String × JVal)
  | [], k, v => [(k, v)]
  | p :: rest, k, v => if p.1 = k then (k, v) :: rest else p :: setKey rest k v

/-- Python `d[k]` on a dictionary, as a total lookup. -/
def getKey : List (String × JVal) → String → Option JVal
  | [], _ => none
  | p :: rest, k => if p.1 = k then some p.2 else getKey rest k

/-- A sequence of Python dictionary assignments, performed in order. -/
def applyWrites (m : List (String × JVal)) (ws : List (String × JVal)) : List (String × JVal) :=
  ws.foldl (fun acc p => setKey acc p.1 p.2) m

/-- The value of the last write with key `k` in the sequence `ws`. -/
def lastWrite : List (String × JVal) → String → Option JVal
  | [], _ => none
  | p :: rest, k =>
    match lastWrite rest k with
    | some v => some v
    | none => if p.1 = k then some p.2 else none

/-!
## Aggregation (elastic.py 28-55)

`aggs` holds, in registration order, the singleton dictionaries produced
by `add`; each is represented by its single key (the aggregation name,
also recorded in `agg_names`, as `add` keeps the two lists in lockstep)
together with its body entries.
-/

structure Aggregation where
  aggs : List (String × List (String × JVal))
  agg_names : List String

/-- `Aggregation.__init__`: both lists start empty. -/
def Aggregation.empty : Aggregation := ⟨[], []⟩

/-- `Aggregation.add` (elastic.py 34-47): builds
`\x7bagg_name: \x7bagg_type: \x7b"field": field, "size"?: size\x7d\x7d\x7d` and appends it;
raises `ValueError` on a duplicate name. -/
def Aggregation.add (a : Aggregation) (agg_name agg_type field : String)
    (size : Option Rat := none) : Except String Aggregation :=
  if agg_name ∈ a.agg_names then .error "ValueError: agg_name already declared"
  else
    let inner : List (String × JVal) :=
      match size with
      | some n => setKey [("field", .str field)] "size" (.num n)
      | none => [("field", .str field)]
    .ok ⟨a.aggs ++ [(agg_name, [(agg_type, JVal.obj inner)])], a.agg_names ++ [agg_name]⟩

/-- One iteration of the `to_dict` loop body (elastic.py 54):
`aggs = \x7bagg_name: \x7b**agg[agg_name], 'aggs': aggs\x7d\x7d if aggs is not None else \x7b**agg\x7d`. -/
def nestStep (acc : Option (List (String × JVal))) (p : String × List (String × JVal)) :
    Option (List (String × JVal)) :=
  match acc with
  | some t => some [(p.1, JVal.obj (setKey p.2 "aggs" (JVal.obj t)))]
  | none => some [(p.1, JVal.obj p.2)]

/-- `Aggregation.to_dict` (elastic.py 49-55): the loop runs
`i = len(aggs), …, 1`, i.e. it visits the entries in reverse registration
order, starting from `None`. -/
def Aggregation.to_dict (a : Aggregation) : Option (List (String × JVal)) :=
  a.aggs.reverse.foldl nestStep none

/-!
## Query builder (elastic.py 57-247)

The engine connection `_es` and the target index only affect `exec`
(one async round trip, not embedded); all remaining instance state is
carried by the structure below.  `datetime` values are modelled by their
position on the timeline (an `Int`); `isoformat()` then corresponds to
embedding that instant into the payload, since ISO-8601 strings compare
chronologically.
-/

abbrev Datetime := Int

structure Query where
  query_ : Option JVal
  min_score : Option Rat
  page_ : Int
  records : Option Int
  filter_ : List JVal
  aggregations : List (String × JVal)
  timeStart : Option Datetime
  timeEnd : Option Datetime
  custom_ : List (String × JVal)
  sources : Option (List String)
  keyword : Option (List String)
  format : Option (List String)
  protocol : Option (List String)
  organisation : Option (List String)
  _payload : List (String × JVal)

/-- `Query.__init__` (elastic.py 59-79). -/
def Query.init (page : Int := 1) (records : Option Int := none) : Query :=
  ⟨none, none, page, records, [], [], none, none, [], none, none, none, none, none, []⟩

/-- The attribute names defined on the `Query` class and its instances;
`__getattr__` is only consulted for names outside this list. -/
def QueryAttrs : List String :=
  ["_es", "_index", "query_", "min_score", "page_", "records", "filter_",
   "aggregations", "timeStart", "timeEnd", "custom_", "sources", "keyword",
   "format", "protocol", "organisation", "_payload", "query", "minScore",
   "page", "recordsPerPage", "bbox", "between", "filter", "aggs",
   "significantTerms", "parse", "exec"]

/-- `Query.__getattr__` (elastic.py 81-85): an attribute access for a name
not defined on the class yields a wrapper that records `(name, body)` in
`custom_` and returns `self`. -/
def Query.customCall (s : Query) (name : String) (body : JVal) : Query :=
  { s with custom_ := s.custom_ ++ [(name, body)] }

/-- `Query.query` (elastic.py 87-89); the argument is a string for search
requests but route handlers also pass whole dictionaries. -/
def Query.query (s : Query) (query : JVal) : Query :=
  { s with query_ := some query }

/-- `Query.minScore` (elastic.py 91-93). -/
def Query.minScore (s : Query) (score : Rat) : Query :=
  { s with min_score := some score }

/-- `Query.page` (elastic.py 95-97). -/
def Query.page (s : Query) (page : Int) : Query :=
  { s with page_ := page }

/-- `Query.recordsPerPage` (elastic.py 99-101). -/
def Query.recordsPerPage (s : Query) (records : Int) : Query :=
  { s with records := some records }

/-- The `predicates` dictionary of `Query.bbox` (elastic.py 104-108); a
lookup outside its three keys raises `KeyError`. -/
def bboxPredicates (predicate : String) : Option String :=
  if predicate = "contains" then some "WITHIN"
  else if predicate = "overlaps" then some "INTERSECTS"
  else if predicate = "disjoint" then some "DISJOINT"
  else none

/-- The geo-shape filter clause built by `Query.bbox` (elastic.py 110-120). -/
def geoShapeClause (xmin ymin xmax ymax : Rat) (relation : String) : JVal :=
  .obj [("geo_shape", .obj [("_geom", .obj [
    ("shape", .obj [("type", .str "envelope"),
      ("coordinates", .arr [.arr [.num xmin, .num ymax], .arr [.num xmax, .num ymin]])]),
    ("relation", .str relation)])])]

/-- `Query.bbox` (elastic.py 103-122): unpacks the four coordinates,
resolves the predicate (raising on an unknown one) and appends one
geo-shape clause. -/
def Query.bbox (s : Query) (bbox : List Rat) (predicate : String := "overlaps") :
    Except String Query :=
  match bbox with
  | [xmin, ymin, xmax, ymax] =>
    match bboxPredicates predicate with
    | some relation =>
      .ok { s with filter_ := s.filter_ ++ [geoShapeClause xmin ymin xmax ymax relation] }
    | none => .error "KeyError"
  | _ => .error "ValueError: wrong number of coordinates"

/-- The range clause appended for `from_` by `Query.between` (elastic.py 126-133). -/
def whenToGteClause (from_ : Datetime) : JVal :=
  .obj [("range", .obj [("when.to", .obj [("gte", .num from_)])])]

/-- The range clause appended for `to_` by `Query.between` (elastic.py 135-142). -/
def whenFromLteClause (to_ : Datetime) : JVal :=
  .obj [("range", .obj [("when.from", .obj [("lte", .num to_)])])]

/-- `Query.between` (elastic.py 124-143). -/
def Query.between (s : Query) (from_ to_ : Option Datetime) : Query :=
  let s := match from_ with
    | some f => { s with filter_ := s.filter_ ++ [whenToGteClause f] }
    | none => s
  match to_ with
  | some t => { s with filter_ := s.filter_ ++ [whenFromLteClause t] }
  | none => s

/-- `Query.filter` (elastic.py 145-151): `term` for a single string value,
`terms` otherwise. -/
def Query.filter (s : Query) (field : String) (value : JVal) : Query :=
  let filter_key := match value with
    | .str _ => "term"
    | _ => "terms"
  { s with filter_ := s.filter_ ++ [JVal.obj [(filter_key, .obj [(field, value)])]] }

/-- `Query.aggs` (elastic.py 153-162) for a list argument (the
`isinstance(aggregations, Aggregation)` branch merely wraps a single spec
into a one-element list): each spec's compiled tree, when not `None`, is
merged into the cumulative `aggregations` dictionary via `dict.update`. -/
def Query.aggsAdd (s : Query) (aggregations : List Aggregation) : Query :=
  aggregations.foldl
    (fun q agg =>
      match agg.to_dict with
      | some agg_dict => { q with aggregations := applyWrites q.aggregations agg_dict }
      | none => q) s

/-- `Query.parse` (elastic.py 178-195).  `payload = self._payload` aliases
the instance dictionary, so the method both returns the payload and
stores it back on the instance; the returned pair is (state after the
call, payload). -/
def Query.parse (s : Query) : Query × List (String × JVal) :=
  let payload := s._payload
  let payload := match s.min_score with
    | some v => setKey payload "min_score" (.num v)
    | none => payload
  let payload := match s.query_ with
    | some q => setKey payload "query" q
    | none => payload
  let payload := match s.records with
    | some r => setKey (setKey payload "from" (.num ((r * (s.page_ - 1) : Int) : Rat))) "size" (.num (r : Rat))
    | none => payload
  let payload := applyWrites payload s.custom_
  let payload := if s.aggregations.length > 0 then setKey payload "aggs" (.obj s.aggregations) else payload
  ({ s with _payload := payload }, payload)

/-- Python `None`-tolerant injection: `match_phrase["query"] = self.query_`
stores `None` when no query string was set. -/
def optJ : Option JVal → JVal
  | some v => v
  | none => .null

/-- The `bool` query built by `ExactSearch.parse` (elastic.py 222-246)
from the current free text and accumulated filters. -/
def exactBoolQuery (query_ : Option JVal) (filter_ : List JVal) : JVal :=
  let match_phrase : JVal := .obj [("query", optJ query_), ("slop", .num 5),
    ("analyzer", .str "standard"), ("zero_terms_query", .str "none")]
  .obj [("bool", .obj [
    ("should", .arr [
      .obj [("match_phrase", .obj [("title", match_phrase)])],
      .obj [("match_phrase", .obj [("description", match_phrase)])]]),
    ("filter", .arr filter_),
    ("minimum_should_match", .num 1)])]

/-- `ExactSearch.parse` (elastic.py 220-247): rewrites `self.query_` to
the `bool` query, then delegates to `Query.parse`. -/
def ExactSearch.parse (s : Query) : Query × List (String × JVal) :=
  Query.parse { s with query_ := some (exactBoolQuery s.query_ s.filter_) }

/-- `SemanticSearch.parse` (elastic.py 205-218), parameterized by the
embedding collaborator `predict` (an external model-inference service):
when a query is present it appends a `_lang` term filter, stores the knn
clause directly into `_payload`, clears the query and delegates. -/
def SemanticSearch.parse (predict : JVal → JVal) (s : Query) : Query × List (String × JVal) :=
  match s.query_ with
  | some q =>
    let s := Query.filter s "_lang" (.str "en")
    let s := { s with _payload := setKey s._payload "knn" (.obj [
      ("field", .str "_embedding"), ("query_vector", predict q),
      ("k", .num 10000), ("num_candidates", .num 10000),
      ("filter", .arr s.filter_)]) }
    Query.parse { s with query_ := none }
  | none => Query.parse s

/-- What `Query.parse` writes at key `k` (`none` when it leaves the key
alone): the `aggs` write happens last, then the custom writes (where the
last recorded body wins), then paging, query and score. -/
def Query.parseVal (s : Query) (k : String) : Option JVal :=
  if k = "aggs" ∧ s.aggregations.length > 0 then some (.obj s.aggregations)
  else
    match lastWrite s.custom_ k with
    | some v => some v
    | none =>
      if k = "size" then s.records.map (fun r => .num (r : Rat))
      else if k = "from" then s.records.map (fun r => .num ((r * (s.page_ - 1) : Int) : Rat))
      else if k = "query" then s.query_
      else if k = "min_score" then s.min_score.map (fun v => .num v)
      else none

/-!
## Response normalizer (api/routers/search.py 20-67)

Python dictionary / list accesses that can raise are modelled in
`Except String`.
-/

/-- Python `d[k]`: `KeyError` on a missing key, `TypeError` elsewhere. -/
def pyIndex (v : JVal) (k : String) : Except String JVal :=
  match v with
  | .obj entries =>
    match getKey entries k with
    | some x => .ok x
    | none => .error "KeyError"
  | _ => .error "TypeError: not subscriptable"

/-- Python `d.get(k, default)` on a dictionary. -/
def pyGetD (v : JVal) (k : String) (default : JVal) : Except String JVal :=
  match v with
  | .obj entries =>
    match getKey entries k with
    | some x => .ok x
    | none => .ok default
  | _ => .error "AttributeError: no attribute get"

/-- Python `x[0]` on a list. -/
def pyHead (v : JVal) : Except String JVal :=
  match v with
  | .arr (x :: _) => .ok x
  | .arr [] => .error "IndexError"
  | _ => .error "TypeError: not subscriptable"

/-- Python `len(x)`. -/
def pyLen (v : JVal) : Except String Nat :=
  match v with
  | .arr l => .ok l.length
  | .obj l => .ok l.length
  | .str st => .ok st.length
  | _ => .error "TypeError: has no len"

/-- Python iteration over a list value. -/
def pyList (v : JVal) : Except String (List JVal) :=
  match v with
  | .arr l => .ok l
  | _ => .error "TypeError: not iterable"

/-- `math.ceil(q / b)` computed on the raw numerator and denominator via
Euclidean integer division (which the Lean kernel can evaluate), instead
of rational normalization (which it cannot); `ceilDivInt_eq` below links
it to the mathematical ceiling. -/
def ceilDivInt (q : Rat) (b : Int) : Int :=
  let d := (q.den : Int) * b
  if 0 ≤ d then -(Int.ediv (-q.num) d) else -(Int.ediv q.num (-d))

/-- Python `round(x, 4)` on a number, `TypeError` on anything else.
(Python breaks exact ties at the 4th decimal towards even; `round` here
breaks them upward.  No value handled by the claims sits on a tie.) -/
def pyRound4 (v : JVal) : Except String JVal :=
  match v with
  | .num q => .ok (.num ((round (q * 10000) : ℤ) / 10000))
  | _ => .error "TypeError: round"

/-- An unsigned or `-`-signed decimal literal, as printed inside WKT. -/
def parseDecimal (s : String) : Option Rat :=
  let neg := s.startsWith "-"
  let s := if neg then s.drop 1 else s
  match s.splitOn "." with
  | [w] => (w.toNat?).map (fun n => if neg then -(n : Rat) else (n : Rat))
  | [w, f] =>
    match w.toNat?, f.toNat? with
    | some wn, some fn =>
      let q : Rat := (wn : Rat) + (fn : Rat) / ((10 : Rat) ^ f.length)
      some (if neg then -q else q)
    | _, _ => none
  | _ => none

/-- A `POINT (x y)` Well-Known-Text literal. -/
def wktPoint (s : String) : Option (Rat × Rat) :=
  if s.startsWith "POINT (" && s.endsWith ")" then
    match ((s.drop 7).dropRight 1).splitOn " " with
    | [a, b] =>
      match parseDecimal a, parseDecimal b with
      | some x, some y => some (x, y)
      | _, _ => none
    | _ => none
  else none

/-- Modelled from the spec: the external pygeos conversion
`json.loads(pg.to_geojson(pg.from_wkt(x)))` used by `_getFeatures`
(search.py 26) — the pygeos library is not part of this repository.
Per the spec, stored geometries are Well-Known-Text and are converted to
GeoJSON; `pg.from_wkt` accepts only strings, so it raises `TypeError` on
any other input (in particular on an already-parsed native GeoJSON
object), and raises a parse error on malformed WKT.  Only `POINT (x y)`
geometries are modelled, which is all the claims exercise. -/
def pgWktToGeojson (v : JVal) : Except String JVal :=
  match v with
  | .str s =>
    match wktPoint s with
    | some (x, y) =>
      .ok (.obj [("type", .str "Point"), ("coordinates", .arr [.num x, .num y])])
    | none => .error "GEOSException: malformed WKT"
  | _ => .error "TypeError: from_wkt expects a string"

/-- `_getFeatures` (search.py 20-32): the bare `except` swallows any
failure of the geometry conversion, in which case the feature is emitted
without a `geometry` key. -/
def _getFeatures (field : List JVal) : Except String (Option JVal) :=
  if field.length = 0 then .ok none
  else
    match field with
    | [id_, geom, group_id] =>
      let feature : List (String × JVal) := [("type", .str "Feature"), ("id", id_)]
      let tryGeometry : Except String (Option JVal) := do
        let n ← pyLen geom
        if n > 0 then
          let g0 ← pyHead geom
          let gj ← pgWktToGeojson g0
          pure (some gj)
        else
          pure none
      let geometry : Option JVal :=
        match tryGeometry with
        | .ok g => g
        | .error _ => none
      let feature := match geometry with
        | some g => setKey feature "geometry" g
        | none => feature
      .ok (some (.obj (setKey feature "properties" (.obj [("groupId", group_id)]))))
    | _ => .error "ValueError: unpack"

/-- One term record of the `significantTerms` comprehension
(search.py 50-57): the four presentation variants, selected by
`(terms_significance, termtype == 'source')`. -/
def bucketRecord (terms_significance : Bool) (termtype : String) (values : JVal) :
    Except String JVal :=
  if terms_significance ∧ termtype ≠ "source" then do
    let term ← pyGetD values "key" .null
    let freq ← pyGetD values "doc_count" .null
    let bg ← pyGetD values "bg_count" .null
    let sc ← pyRound4 (← pyGetD values "score" (.num 0))
    pure (.obj [("term", term), ("freq", freq), ("bgFreq", bg), ("score", sc)])
  else if terms_significance then do
    let term ← pyIndex (← pyHead (← pyIndex (← pyIndex values "source_title") "buckets")) "key"
    let freq ← pyGetD values "doc_count" .null
    let bg ← pyGetD values "bg_count" .null
    let sc ← pyRound4 (← pyGetD values "score" (.num 0))
    let tid ← pyGetD values "key" .null
    pure (.obj [("term", term), ("freq", freq), ("bgFreq", bg), ("score", sc), ("termId", tid)])
  else if termtype ≠ "source" then do
    let term ← pyGetD values "key" .null
    let freq ← pyGetD values "doc_count" .null
    pure (.obj [("term", term), ("freq", freq)])
  else do
    let term ← pyGetD (← pyHead (← pyGetD (← pyGetD values "source_title" (.obj []))
      "buckets" (.arr [.obj []]))) "key" .null
    let freq ← pyGetD values "doc_count" .null
    let tid ← pyGetD values "key" .null
    pure (.obj [("term", term), ("freq", freq), ("termId", tid)])

/-- One entry of the `significantTerms` dictionary comprehension
(search.py 49-59): the records of the aggregation's `buckets` list
(default `[]`), keyed by the aggregation name. -/
def facetEntry (terms_significance : Bool) (p : String × JVal) :
    Except String (String × JVal) := do
  let bucketList ← pyList (← pyGetD p.2 "buckets" (.arr []))
  let recs ← bucketList.mapM (bucketRecord terms_significance p.1)
  pure (p.1, JVal.arr recs)

/-- The `significantTerms` dictionary comprehension (search.py 49-59):
one entry per aggregation in the response. -/
def significantTermsOf (terms_significance : Bool) (aggs : List (String × JVal)) :
    Except String (List (String × JVal)) :=
  aggs.mapM (facetEntry terms_significance)

/-- One element of the `data` list comprehension (search.py 38-47). -/
def hitRecord (hit : JVal) : Except String JVal := do
  let fields ← pyIndex hit "fields"
  let groupId ← pyHead (← pyIndex fields "_group")
  let ghits ← pyIndex (← pyIndex (← pyIndex hit "inner_hits") "grouped") "hits"
  let memberCount ← pyIndex (← pyIndex ghits "total") "value"
  let members ← (← pyList (← pyIndex ghits "hits")).mapM
    (fun member => do pyIndex (← pyIndex member "_source") "id")
  let title ← pyHead (← pyGetD fields "title" (.arr [.str ""]))
  let descr ← pyHead (← pyGetD fields "description" (.arr [.str ""]))
  let orgId ← pyHead (← pyGetD fields "source.id" (.arr [.str ""]))
  let orgDesc ← pyHead (← pyGetD fields "source.title" (.arr [.str ""]))
  let score ← pyIndex hit "_score"
  pure (.obj [("groupId", groupId), ("memberCount", memberCount),
    ("members", .arr members), ("title", title), ("description", descr),
    ("origOrgId", orgId), ("origOrgDesc", orgDesc), ("score", score)])

/-- The `geoms` comprehension (search.py 60-64): one
`(id, geometry, groupId)` triple per inner hit of each top-level hit. -/
def geomTriples (hitList : List JVal) : Except String (List (List JVal)) := do
  let nested ← hitList.mapM (fun hit => do
    let inner ← pyList (← pyIndex (← pyIndex (← pyIndex (← pyIndex hit
      "inner_hits") "grouped") "hits") "hits")
    inner.mapM (fun inner_hit => do
      let src ← pyIndex inner_hit "_source"
      let id_ ← pyIndex src "id"
      let geom ← pyIndex src "_geom"
      let grp ← pyHead (← pyIndex (← pyIndex hit "fields") "_group")
      pure [id_, geom, grp]))
  pure nested.flatten

/-- Lookup in an object value (`none` on any other value); a probe used
only in theorem statements, not part of the embedded code. -/
def jObjGet (v : JVal) (k : String) : Option JVal :=
  match v with
  | .obj l => getKey l k
  | _ => none

/-- First element of an array value; a probe for theorem statements. -/
def jArrHead (v : JVal) : Option JVal :=
  match v with
  | .arr (x :: _) => some x
  | _ => none

/-- Whether a value is a string; a probe for theorem statements. -/
def jIsStr (v : JVal) : Bool :=
  match v with
  | .str _ => true
  | _ => false

/-- `_parseElasticResponse` (search.py 34-67); the `kwargs.pop` defaults
become default arguments.  `totalPages` is
`math.ceil(aggregations.group_number.value / records_per_page)`, computed
before anything else. -/
def _parseElasticResponse (response : JVal) (page : Int := 1)
    (records_per_page : Int := 10) (terms_significance : Bool := false) :
    Except String JVal := do
  let aggsJ ← pyIndex response "aggregations"
  let gv ← pyIndex (← pyIndex aggsJ "group_number") "value"
  let gq ← match gv with
    | .num q => Except.ok q
    | _ => Except.error "TypeError: unsupported operand"
  let totalPages ← if records_per_page = 0 then Except.error "ZeroDivisionError"
    else pure (ceilDivInt gq records_per_page)
  let hits ← pyIndex response "hits"
  let numberOfResults ← pyIndex (← pyIndex hits "total") "value"
  let hitList ← pyList (← pyIndex hits "hits")
  let data ← hitList.mapM hitRecord
  let aggEntries ← match aggsJ with
    | .obj l => Except.ok l
    | _ => Except.error "AttributeError: items"
  let significantTerms ← significantTermsOf terms_significance aggEntries
  let geoms ← geomTriples hitList
  let features ← geoms.mapM (fun g => do pure (optJ (← _getFeatures g)))
  let geojson := JVal.obj [("type", .str "FeatureCollection"),
    ("features", .arr features)]
  pure (.obj [("page", .num (page : Rat)), ("totalPages", .num (totalPages : Rat)),
    ("numberOfResults", numberOfResults), ("data", .arr data),
    ("significantTerms", .obj significantTerms), ("geoJson", geojson)])

/-!
## Spec-modelled engine semantics and response shapes used by the claims
-/

/-- Modelled from the spec: the engine's evaluation (external to this
repository) of one of the range filters produced by `between`, on a
record whose temporal extent is `[whenFrom, whenTo]` (document fields
`when.from` / `when.to`): a `gte` (resp. `lte`) bound requires the stored
field to be at or above (resp. below) the bound. -/
def rangeClauseMatches (whenFrom whenTo : Rat) (clause : JVal) : Bool :=
  match clause with
  | .obj [("range", .obj [("when.to", .obj [("gte", .num v)])])] => decide (v ≤ whenTo)
  | .obj [("range", .obj [("when.from", .obj [("lte", .num v)])])] => decide (whenFrom ≤ v)
  | _ => false

/-- A raw engine response carrying a distinct-group cardinality `g` and a
total hit count `h`, with no hits on the page. -/
def mkSearchResponse (g : Int) (h : Rat) : JVal :=
  .obj [("aggregations", .obj [("group_number", .obj [("value", .num (g : Rat))])]),
        ("hits", .obj [("total", .obj [("value", .num h)]), ("hits", .arr [])])]

/-!
## Concrete builders, buckets and responses used by the claims
-/

/-- A two-entry aggregation spec registered through `add`: first
`source`, then `source_title` (exactly as the `/sources` route builds
one). -/
def c1agg : Except String Aggregation :=
  (Aggregation.empty.add "source" "terms" "source.id" (some 50)).bind
    (fun a => a.add "source_title" "terms" "source.title" (some 1))

/-- The exact-match builder holding the query `flood risk`, its first
compiled payload, and the payload of a second compile with no mutation in
between. -/
def c2s0 : Query := Query.init.query (.str "flood risk")

def c2p1 : List (String × JVal) := (ExactSearch.parse c2s0).2

def c2p2 : List (String × JVal) := (ExactSearch.parse (ExactSearch.parse c2s0).1).2

/-- Whether the value sitting at
`query.bool.should[0].match_phrase.title.query` of a payload is a string
(the free text) — after a second compile it is a whole `bool` object. -/
def queryProbe (p : List (String × JVal)) : Option Bool :=
  (((((getKey p "query").bind (fun v => jObjGet v "bool")).bind
    (fun v => jObjGet v "should")).bind jArrHead).bind
    (fun v => jObjGet v "match_phrase")).bind
    (fun v => (jObjGet v "title").bind
      (fun t => (jObjGet t "query").map jIsStr))

/-- A response aggregation map holding one terms facet (`keyword`) and
the distinct-group-count cardinality aggregation (`group_number`). -/
def c3aggs : List (String × JVal) :=
  [("keyword", .obj [("buckets", .arr [.obj [("key", .str "hydrology"),
      ("doc_count", .num 7)]])]),
   ("group_number", .obj [("value", .num 5)])]

/-- The native GeoJSON Point object of the claim. -/
def c4point : JVal :=
  .obj [("type", .str "Point"), ("coordinates", .arr [.num (51/5), .num (481/10)])]

/-- A plain terms bucket with no background count, no score and no
source-title sub-aggregation. -/
def c5bucket : List (String × JVal) :=
  [("key", .str "hydrology"), ("doc_count", .num 31)]

/-- The exact-match builder of the spec's scenario: query `flood risk`
with a term filter on `source.id` and a terms filter on `keyword`. -/
def c6s : Query :=
  ((Query.init.query (.str "flood risk")).filter "source.id"
    (.str "agencyA")).filter "keyword" (.arr [.str "hydrology", .str "risk"])

theorem getKey_setKey (m : List (String × JVal)) (k k' : String) (v : JVal) :
    getKey (setKey m k v) k' = if k' = k then some v else getKey m k' := by
  induction m with
  | nil =>
    by_cases h : k' = k
    · subst h; simp [setKey, getKey]
    · have h2 : ¬k = k' := fun hh => h hh.symm
      simp [setKey, getKey, h, h2]
  | cons p rest ih =>
    by_cases hpk : p.1 = k
    · by_cases h : k' = k
      · subst h; simp [setKey, getKey, hpk]
      · have h2 : ¬k = k' := fun hh => h hh.symm
        have h3 : ¬p.1 = k' := fun hh => h ((hpk.symm.trans hh).symm)
        simp [setKey, getKey, hpk, h, h2, h3]
    · by_cases hp' : p.1 = k'
      · have hk : ¬k' = k := fun hh => hpk (hp'.trans hh)
        simp [setKey, getKey, hpk, hp', hk]
      · simp [setKey, getKey, hpk, hp', ih]

theorem getKey_applyWrites (ws : List (String × JVal)) (m : List (String × JVal)) (k : String) :
    getKey (applyWrites m ws) k =
      match lastWrite ws k with
      | some v => some v
      | none => getKey m k := by
  induction ws generalizing m with
  | nil => simp [applyWrites, lastWrite]
  | cons w rest ih =>
    show getKey (applyWrites (setKey m w.1 w.2) rest) k = _
    rw [ih]
    show _ = match lastWrite (w :: rest) k with
      | some v => some v
      | none => getKey m k
    rw [lastWrite]
    cases hlw : lastWrite rest k with
    | some v => simp
    | none =>
      simp only [getKey_setKey]
      by_cases h : k = w.1
      · rw [if_pos h, if_pos h.symm]
      · rw [if_neg h, if_neg (fun hh => h hh.symm)]

theorem nestStep_isSome (acc : Option (List (String × JVal)))
    (p : String × List (String × JVal)) : (nestStep acc p).isSome := by
  cases acc <;> rfl

theorem foldl_nestStep_isSome (l : List (String × List (String × JVal)))
    (acc : Option (List (String × JVal))) (h : acc.isSome) :
    (l.foldl nestStep acc).isSome := by
  induction l generalizing acc with
  | nil => exact h
  | cons hd tl ih => exact ih _ (nestStep_isSome acc hd)

theorem to_dict_isSome (a : Aggregation) (h : a.aggs ≠ []) :
    a.to_dict.isSome := by
  unfold Aggregation.to_dict
  cases haggs : a.aggs with
  | nil => exact absurd haggs h
  | cons hd tl =>
    rw [List.reverse_cons, List.foldl_append]
    exact nestStep_isSome _ _

theorem getKey_parse (s : Query) (k : String) :
    getKey (Query.parse s).2 k =
      match Query.parseVal s k with
      | some v => some v
      | none => getKey s._payload k := by
  unfold Query.parse Query.parseVal
  by_cases hagg : s.aggregations.length > 0 <;>
  by_cases hk : k = "aggs" <;>
  cases hc : lastWrite s.custom_ k <;>
  cases hr : s.records <;>
  cases hq : s.query_ <;>
  cases hm : s.min_score <;>
  simp [hagg, hk, hc, hr, hq, hm, getKey_applyWrites, getKey_setKey] <;>
  (try subst hk) <;> (try simp [hc]) <;> split_ifs <;> simp_all

theorem ceilDivInt_eq (q : Rat) (b : Int) (hb : 0 < b) :
    ceilDivInt q b = Int.ceil (q / (b : ℚ)) := by
  have hden : (0 : ℤ) < (q.den : ℤ) := by exact_mod_cast q.den_pos
  have hd : (0 : ℤ) ≤ (q.den : ℤ) * b := le_of_lt (mul_pos hden hb)
  unfold ceilDivInt
  rw [if_pos hd]
  have hceil : Int.ceil (q / (b : ℚ)) = -Int.floor (-(q / (b : ℚ))) := by
    rw [Int.floor_neg, neg_neg]
  rw [hceil]
  congr 1
  have hbq : ((b : ℚ)) ≠ 0 := by positivity
  have hdq : ((q.den : ℚ)) ≠ 0 := by positivity
  have key : (q : ℚ) * (q.den : ℚ) = (q.num : ℚ) := by
    nth_rewrite 1 [← Rat.num_div_den q]
    exact div_mul_cancel₀ _ hdq
  have h1 : -(q / (b : ℚ)) = ((-q.num : ℤ) : ℚ) / ((q.den * b.toNat : ℕ) : ℚ) := by
    have htb : ((b.toNat : ℕ) : ℚ) = (b : ℚ) := by
      exact_mod_cast Int.toNat_of_nonneg hb.le
    push_cast
    rw [htb]
    field_simp
    linear_combination (b : ℚ) * key
  rw [h1, Rat.floor_intCast_div_natCast]
  congr 1
  push_cast [Int.toNat_of_nonneg hb.le]
  ring

/-!
## General lemmas about the dictionary model and the embedded functions
-/

theorem lastWrite_eq_none (ws : List (String × JVal)) (k : String)
    (h : k ∉ ws.map Prod.fst) : lastWrite ws k = none := by
  induction ws with
  | nil => rfl
  | cons w rest ih =>
    simp only [List.map_cons, List.mem_cons] at h
    push_neg at h
    rw [lastWrite, ih h.2, if_neg (fun hh => h.1 hh.symm)]

theorem lastWrite_append_last (ws : List (String × JVal)) (k : String) (v : JVal) :
    lastWrite (ws ++ [(k, v)]) k = some v := by
  induction ws with
  | nil => simp [lastWrite]
  | cons w rest ih => rw [List.cons_append, lastWrite, ih]

theorem pyGetD_obj (entries : List (String × JVal)) (k : String) (d : JVal) :
    pyGetD (.obj entries) k d = .ok ((getKey entries k).getD d) := by
  unfold pyGetD
  cases h : getKey entries k <;> simp [h]

theorem exceptMapM_keys {α γ : Type} (f : α → Except String γ) (g1 : γ → String)
    (g2 : α → String) (hf : ∀ a b, f a = .ok b → g1 b = g2 a) :
    ∀ (l : List α) (res : List γ), l.mapM f = .ok res → res.map g1 = l.map g2 := by
  intro l
  induction l with
  | nil =>
    intro res h
    rw [List.mapM_nil] at h
    have := Except.ok.inj h
    subst this
    rfl
  | cons a l ih =>
    intro res h
    rw [List.mapM_cons] at h
    cases hfa : f a with
    | error e => rw [hfa] at h; exact Except.noConfusion h
    | ok b =>
      rw [hfa] at h
      cases hml : l.mapM f with
      | error e => rw [hml] at h; exact Except.noConfusion h
      | ok bs =>
        rw [hml] at h
        have := Except.ok.inj h
        subst this
        simp [List.map_cons, hf a b hfa, ih bs hml]

theorem exceptMapM_mem {α γ : Type} (f : α → Except String γ) :
    ∀ (l : List α) (res : List γ) (a : α) (b : γ),
      l.mapM f = .ok res → a ∈ l → f a = .ok b → b ∈ res := by
  intro l
  induction l with
  | nil => intro res a b _ ha; exact absurd ha (List.not_mem_nil a)
  | cons x l ih =>
    intro res a b h ha hb
    rw [List.mapM_cons] at h
    cases hfa : f x with
    | error e => rw [hfa] at h; exact Except.noConfusion h
    | ok c =>
      rw [hfa] at h
      cases hml : l.mapM f with
      | error e => rw [hml] at h; exact Except.noConfusion h
      | ok bs =>
        rw [hml] at h
        have := Except.ok.inj h
        subst this
        rcases List.mem_cons.mp ha with rfl | hmem
        · rw [hfa] at hb
          have := Except.ok.inj hb
          subst this
          exact List.mem_cons_self _ _
        · exact List.mem_cons_of_mem _ (ih bs a b hml hmem hb)

theorem exceptOkBind {α β : Type} (a : α) (f : α → Except String β) :
    (Except.ok a >>= f) = f a := rfl

theorem exceptErrBind {α β : Type} (e : String) (f : α → Except String β) :
    ((Except.error e : Except String α) >>= f) = Except.error e := rfl

theorem exceptPureEq {α : Type} (a : α) : (pure a : Except String α) = Except.ok a := rfl

theorem facetEntry_key (tsig : Bool) (p : String × JVal) (r : String × JVal)
    (h : facetEntry tsig p = .ok r) : r.1 = p.1 := by
  unfold facetEntry at h
  cases h1 : pyGetD p.2 "buckets" (.arr []) with
  | error e => rw [h1] at h; exact Except.noConfusion h
  | ok v =>
    rw [h1, exceptOkBind] at h
    cases h2 : pyList v with
    | error e => rw [h2] at h; exact Except.noConfusion h
    | ok bl =>
      rw [h2, exceptOkBind] at h
      cases h3 : bl.mapM (bucketRecord tsig p.1) with
      | error e => rw [h3] at h; exact Except.noConfusion h
      | ok recs =>
        rw [h3, exceptOkBind] at h
        have := Except.ok.inj h
        subst this
        rfl

theorem facetEntry_no_buckets (tsig : Bool) (name : String)
    (entries : List (String × JVal)) (h : getKey entries "buckets" = none) :
    facetEntry tsig (name, .obj entries) = .ok (name, .arr []) := by
  unfold facetEntry
  rw [pyGetD_obj, h]
  rfl

/-!
## Claims
-/

/-- **C1, counterexample.**  The claim says the outermost key of the
compiled tree is the name of the *last*-added aggregation.  On the spec
registering `source` then `source_title`, the compiled tree's only
outermost key is `source` — the FIRST-added name — while the last-added
name is `source_title`. -/
theorem c1_last_added_not_outermost :
    c1agg.map (fun a => (a.to_dict.map (fun d => d.map Prod.fst), a.agg_names.getLast?)) =
      .ok (some ["source"], some "source_title") ∧
    ("source" : String) ≠ "source_title" :=
  ⟨rfl, by decide⟩

/-- **C1 (amended).**  For every aggregation spec with at least two
registered entries, the outermost key of the tree produced by
`Aggregation.to_dict` is the name of the FIRST-added aggregation, and the
value under that key's `aggs` sub-key is the nested tree built from all
entries except the first. -/
theorem c1_first_added_outermost (a : Aggregation) (p : String × List (String × JVal))
    (rest : List (String × List (String × JVal))) (names : List String)
    (h : a.aggs = p :: rest) (hrest : rest ≠ []) :
    ∃ t, Aggregation.to_dict ⟨rest, names⟩ = some t ∧
      a.to_dict = some [(p.1, JVal.obj (setKey p.2 "aggs" (JVal.obj t)))] := by
  have hs : (Aggregation.to_dict ⟨rest, names⟩).isSome :=
    to_dict_isSome ⟨rest, names⟩ hrest
  obtain ⟨t, ht⟩ := Option.isSome_iff_exists.mp hs
  refine ⟨t, ht, ?_⟩
  have ht2 : List.foldl nestStep none rest.reverse = some t := ht
  unfold Aggregation.to_dict
  rw [h, List.reverse_cons, List.foldl_append, ht2]
  rfl

/-- **C1 (amended), witness** at a concrete two-entry spec. -/
theorem c1_first_added_outermost_witness :
    ∃ t, Aggregation.to_dict
        ⟨[("b", [("terms", JVal.obj [("field", JVal.str "g")])])], ["a", "b"]⟩ = some t ∧
      Aggregation.to_dict
        ⟨[("a", [("terms", JVal.obj [("field", JVal.str "f")])]),
          ("b", [("terms", JVal.obj [("field", JVal.str "g")])])], ["a", "b"]⟩ =
        some [("a", JVal.obj (setKey [("terms", JVal.obj [("field", JVal.str "f")])]
          "aggs" (JVal.obj t)))] :=
  c1_first_added_outermost
    ⟨[("a", [("terms", JVal.obj [("field", JVal.str "f")])]),
      ("b", [("terms", JVal.obj [("field", JVal.str "g")])])], ["a", "b"]⟩
    ("a", [("terms", JVal.obj [("field", JVal.str "f")])])
    [("b", [("terms", JVal.obj [("field", JVal.str "g")])])]
    ["a", "b"] rfl (List.cons_ne_nil _ _)

/-- **C2 (amended).**  For the base builder, compiling twice without
intervening mutation yields payloads that agree on every key (Python
dictionary deep-equality), and compilation leaves every accumulated
builder field unchanged, only refreshing the internal `_payload` cache.
(The exact-match builder violates the original claim: see the
counterexample below — its `parse` rewrites `query_`, so a second
compile wraps the query a second time and yields a different payload.) -/
theorem c2_base_parse_idempotent (s : Query) :
    (∀ k, getKey (Query.parse (Query.parse s).1).2 k = getKey (Query.parse s).2 k) ∧
    (Query.parse s).1 = { s with _payload := (Query.parse s).2 } := by
  refine ⟨fun k => ?_, rfl⟩
  rw [getKey_parse]
  have hfields : Query.parseVal (Query.parse s).1 k = Query.parseVal s k := rfl
  rw [hfields]
  cases hpv : Query.parseVal s k with
  | some v => rw [getKey_parse s k, hpv]
  | none => rfl

/-- **C2, counterexample.**  Compiling the exact-match builder twice
without mutation yields payloads that are NOT deep-equal: the phrase
body's `query` member is the free-text string after the first compile
and a nested `bool` object after the second, so the payloads differ at
key `query`. -/
theorem c2_exact_parse_not_idempotent :
    queryProbe c2p1 = some true ∧ queryProbe c2p2 = some false ∧
    getKey c2p2 "query" ≠ getKey c2p1 "query" := by
  refine ⟨rfl, rfl, fun hq => ?_⟩
  have h2 : queryProbe c2p2 = queryProbe c2p1 := by
    unfold queryProbe
    rw [hq]
  rw [show queryProbe c2p1 = some true from rfl] at h2
  rw [show queryProbe c2p2 = some false from rfl] at h2
  exact Bool.noConfusion (Option.some.inj h2)

/-- **C3, counterexample.**  The claim says the distinct-group-count
aggregation is NOT included among the returned facet keys; the code
returns one entry per aggregation name including `group_number` (mapped
to an empty list). -/
theorem c3_cardinality_included :
    (significantTermsOf false c3aggs).map (fun r => r.map Prod.fst) =
      .ok ["keyword", "group_number"] ∧
    "group_number" ∈ ["keyword", "group_number"] :=
  ⟨rfl, by decide⟩

/-- **C3 (amended).**  Facet extraction produces one entry per
aggregation name present in the response's aggregations map INCLUDING
the distinct-group-count (cardinality) aggregation: whenever it
succeeds, the returned keys are exactly the aggregation names in order,
and an aggregation whose body has no `buckets` key (the shape of a
cardinality result) is mapped to an empty term list rather than
omitted. -/
theorem c3_facet_keys (tsig : Bool) (aggs : List (String × JVal))
    (res : List (String × JVal)) (h : significantTermsOf tsig aggs = .ok res) :
    res.map Prod.fst = aggs.map Prod.fst ∧
    (∀ name entries, (name, JVal.obj entries) ∈ aggs →
      getKey entries "buckets" = none → (name, JVal.arr []) ∈ res) := by
  constructor
  · exact exceptMapM_keys (facetEntry tsig) Prod.fst Prod.fst
      (fun p r hr => facetEntry_key tsig p r hr) aggs res h
  · intro name entries hmem hb
    exact exceptMapM_mem (facetEntry tsig) aggs res (name, .obj entries)
      (name, .arr []) h hmem (facetEntry_no_buckets tsig name entries hb)

/-- **C3 (amended), witness** on the concrete aggregation map. -/
theorem c3_facet_keys_witness :
    ([("keyword", JVal.arr [JVal.obj [("term", JVal.str "hydrology"),
        ("freq", JVal.num 7)]]), ("group_number", JVal.arr [])].map Prod.fst =
      c3aggs.map Prod.fst) ∧
    (∀ name entries, (name, JVal.obj entries) ∈ c3aggs →
      getKey entries "buckets" = none →
      (name, JVal.arr []) ∈ [("keyword", JVal.arr [JVal.obj [("term",
        JVal.str "hydrology"), ("freq", JVal.num 7)]]),
        ("group_number", JVal.arr [])]) :=
  c3_facet_keys false c3aggs _ rfl

/-- **C4, counterexample.**  A native GeoJSON Point
`(type Point, coordinates (10.2, 48.1))` stored as the member geometry
does NOT round-trip through feature extraction: the emitted feature has
no `geometry` key at all, rather than the input geometry unchanged. -/
theorem c4_native_point_dropped :
    _getFeatures [.str "rec1", .arr [c4point], .str "g1"] =
      .ok (some (.obj [("type", .str "Feature"), ("id", .str "rec1"),
        ("properties", .obj [("groupId", .str "g1")])])) ∧
    getKey [("type", JVal.str "Feature"), ("id", JVal.str "rec1"),
      ("properties", JVal.obj [("groupId", JVal.str "g1")])] "geometry" = none :=
  ⟨rfl, rfl⟩

/-- **C4 (amended).**  A stored member geometry that is not a WKT string
— in particular a native GeoJSON object — is not converted:
`pg.from_wkt` raises, the bare `except` swallows the error, and the
feature is emitted WITHOUT a `geometry` key (type, id and group id
intact). -/
theorem c4_non_string_geometry_dropped (id_ g group_id : JVal)
    (h : jIsStr g = false) :
    _getFeatures [id_, .arr [g], group_id] =
      .ok (some (.obj [("type", .str "Feature"), ("id", id_),
        ("properties", .obj [("groupId", group_id)])])) := by
  cases g with
  | str sg => simp [jIsStr] at h
  | num q => rfl
  | boolean b => rfl
  | null => rfl
  | arr l => rfl
  | obj l => rfl

/-- **C4 (amended), witness** at a concrete non-string geometry. -/
theorem c4_non_string_geometry_dropped_witness :
    jIsStr (JVal.obj [("type", JVal.str "Point")]) = false ∧
    _getFeatures [JVal.str "idA", .arr [JVal.obj [("type", JVal.str "Point")]],
        JVal.str "grpB"] =
      .ok (some (.obj [("type", JVal.str "Feature"), ("id", JVal.str "idA"),
        ("properties", JVal.obj [("groupId", JVal.str "grpB")])])) :=
  ⟨rfl, c4_non_string_geometry_dropped (JVal.str "idA")
    (JVal.obj [("type", JVal.str "Point")]) (JVal.str "grpB") rfl⟩

/-- **C5, counterexample.**  In the significance-scored source variant, a
bucket lacking the `source_title` sub-aggregation makes facet extraction
raise `KeyError` instead of degrading to a default. -/
theorem c5_sig_source_missing_subagg_raises :
    significantTermsOf true
      [("source", .obj [("buckets", .arr [.obj [("key", .str "src1"),
        ("doc_count", .num 3)]])])] = .error "KeyError" := rfl

/-- **C5 (amended).**  For every facet bucket (a dictionary), in both
plain variants and the significance non-source variant, extraction never
raises when optional values are missing — a missing background count
yields a `None` `bgFreq`, a missing significance score defaults to 0,
and in the plain source variant a missing `source_title` sub-aggregation
yields a `None` term through the defaulted chain — but in the
significance-scored SOURCE variant a missing `source_title`
sub-aggregation raises `KeyError`. -/
theorem c5_tolerant_except_sig_source (t : String) (entries : List (String × JVal))
    (ht : t ≠ "source") :
    bucketRecord false t (.obj entries) =
      .ok (.obj [("term", (getKey entries "key").getD .null),
        ("freq", (getKey entries "doc_count").getD .null)]) ∧
    (getKey entries "score" = none → getKey entries "bg_count" = none →
      bucketRecord true t (.obj entries) =
        .ok (.obj [("term", (getKey entries "key").getD .null),
          ("freq", (getKey entries "doc_count").getD .null),
          ("bgFreq", .null), ("score", .num 0)])) ∧
    (getKey entries "source_title" = none →
      bucketRecord false "source" (.obj entries) =
        .ok (.obj [("term", .null),
          ("freq", (getKey entries "doc_count").getD .null),
          ("termId", (getKey entries "key").getD .null)])) ∧
    (getKey entries "source_title" = none →
      bucketRecord true "source" (.obj entries) = .error "KeyError") := by
  refine ⟨?_, fun hs hb => ?_, fun hst => ?_, fun hst => ?_⟩
  · simp [bucketRecord, ht, pyGetD_obj, exceptOkBind]
  · simp [bucketRecord, ht, pyGetD_obj, exceptOkBind, hs, hb, pyRound4]
  · simp [bucketRecord, pyGetD_obj, exceptOkBind, hst, pyHead, getKey]
  · simp [bucketRecord, pyIndex, hst, exceptErrBind]

/-- **C5 (amended), witness** on the concrete bucket. -/
theorem c5_tolerant_witness :
    bucketRecord false "keyword" (.obj c5bucket) =
      .ok (.obj [("term", (getKey c5bucket "key").getD .null),
        ("freq", (getKey c5bucket "doc_count").getD .null)]) ∧
    bucketRecord true "keyword" (.obj c5bucket) =
      .ok (.obj [("term", (getKey c5bucket "key").getD .null),
        ("freq", (getKey c5bucket "doc_count").getD .null),
        ("bgFreq", .null), ("score", .num 0)]) ∧
    bucketRecord false "source" (.obj c5bucket) =
      .ok (.obj [("term", .null),
        ("freq", (getKey c5bucket "doc_count").getD .null),
        ("termId", (getKey c5bucket "key").getD .null)]) ∧
    bucketRecord true "source" (.obj c5bucket) = .error "KeyError" :=
  have h := c5_tolerant_except_sig_source "keyword" c5bucket (by decide)
  ⟨h.1, h.2.1 rfl rfl, h.2.2.1 rfl, h.2.2.2 rfl⟩

/-- **C6.**  For every query string and accumulated filter list, the
exact-match builder compiles the free text into a `bool` query whose
`should` holds exactly two phrase-match clauses — over `title` and
`description`, each with slop 5, the standard analyzer and
`zero_terms_query: none` — whose `filter` holds exactly the accumulated
clauses, and whose `minimum_should_match` is 1.  (The hypothesis on
`custom_` rules out a pass-through option deliberately named `query`,
which would overwrite the compiled query in the payload.) -/
theorem c6_exact_query_structure (s : Query) (q : String)
    (hq : s.query_ = some (.str q)) (hc : "query" ∉ s.custom_.map Prod.fst) :
    getKey (ExactSearch.parse s).2 "query" = some (.obj [("bool", .obj [
      ("should", .arr [
        .obj [("match_phrase", .obj [("title", .obj [("query", .str q),
          ("slop", .num 5), ("analyzer", .str "standard"),
          ("zero_terms_query", .str "none")])])],
        .obj [("match_phrase", .obj [("description", .obj [("query", .str q),
          ("slop", .num 5), ("analyzer", .str "standard"),
          ("zero_terms_query", .str "none")])])]]),
      ("filter", .arr s.filter_),
      ("minimum_should_match", .num 1)])]) := by
  have hlw : lastWrite s.custom_ "query" = none := lastWrite_eq_none _ _ hc
  show getKey (Query.parse
    { s with query_ := some (exactBoolQuery s.query_ s.filter_) }).2 "query" = _
  rw [getKey_parse]
  simp [Query.parseVal, hlw, exactBoolQuery, optJ, hq]

/-- **C6, witness** on the spec's scenario. -/
theorem c6_exact_query_structure_witness :
    getKey (ExactSearch.parse c6s).2 "query" = some (.obj [("bool", .obj [
      ("should", .arr [
        .obj [("match_phrase", .obj [("title", .obj [("query", .str "flood risk"),
          ("slop", .num 5), ("analyzer", .str "standard"),
          ("zero_terms_query", .str "none")])])],
        .obj [("match_phrase", .obj [("description", .obj [("query", .str "flood risk"),
          ("slop", .num 5), ("analyzer", .str "standard"),
          ("zero_terms_query", .str "none")])])]]),
      ("filter", .arr c6s.filter_),
      ("minimum_should_match", .num 1)])]) :=
  c6_exact_query_structure c6s "flood risk" rfl (by decide)

/-- **C7.**  `between` appends at most two independent range filters —
for `from_` a clause requiring the record's temporal-extent end
(`when.to`) to be ≥ `from_`, for `to_` a clause requiring the
temporal-extent start (`when.from`) to be ≤ `to_`, and nothing for an
absent bound — and a record satisfies both appended clauses exactly when
its extent `[rf, rt]` overlaps the requested window `[f, t]`. -/
theorem c7_between_overlap (s : Query) (f t : Datetime) (rf rt : Rat) :
    (Query.between s (some f) (some t)).filter_ =
        s.filter_ ++ [whenToGteClause f, whenFromLteClause t] ∧
    (Query.between s (some f) none).filter_ = s.filter_ ++ [whenToGteClause f] ∧
    (Query.between s none (some t)).filter_ = s.filter_ ++ [whenFromLteClause t] ∧
    Query.between s none none = s ∧
    (rf ≤ rt → ((f : Rat)) ≤ ((t : Rat)) →
      ((rangeClauseMatches rf rt (whenToGteClause f) = true ∧
        rangeClauseMatches rf rt (whenFromLteClause t) = true) ↔
        max rf ((f : Rat)) ≤ min rt ((t : Rat)))) := by
  refine ⟨?_, ?_, ?_, rfl, fun h1 h2 => ?_⟩
  · simp [Query.between]
  · simp [Query.between]
  · simp [Query.between]
  · have e1 : rangeClauseMatches rf rt (whenToGteClause f) =
        decide (((f : Rat)) ≤ rt) := rfl
    have e2 : rangeClauseMatches rf rt (whenFromLteClause t) =
        decide (rf ≤ ((t : Rat))) := rfl
    rw [e1, e2]
    simp only [decide_eq_true_eq]
    constructor
    · rintro ⟨a, b⟩
      rw [max_le_iff]
      exact ⟨le_min h1 b, le_min a h2⟩
    · intro hm
      rw [max_le_iff, le_min_iff, le_min_iff] at hm
      exact ⟨hm.2.1, hm.1.2⟩

/-- **C7, witness**: the spec's example — a record with extent
`[2019-01-01, 2019-06-01]` queried with `from = 2019-05-01` (and a wide
`to`) satisfies both range clauses, matching the overlap criterion. -/
theorem c7_between_overlap_witness :
    (rangeClauseMatches 20190101 20190601 (whenToGteClause 20190501) = true ∧
      rangeClauseMatches 20190101 20190601 (whenFromLteClause 20991231) = true) ↔
      max (20190101 : Rat) (((20190501 : Datetime) : Rat)) ≤
        min (20190601 : Rat) (((20991231 : Datetime) : Rat)) :=
  (c7_between_overlap Query.init 20190501 20991231 20190101 20190601).2.2.2.2
    (by norm_num) (by norm_num)

/-- **C8.**  `bbox` appends exactly one geo-shape clause whose envelope
coordinates are `[[xmin, ymax], [xmax, ymin]]` and whose relation is
given by the map contains→WITHIN, overlaps→INTERSECTS,
disjoint→DISJOINT; any predicate outside these three raises instead of
silently defaulting. -/
theorem c8_bbox_predicate_map (s : Query) (xmin ymin xmax ymax : Rat)
    (predicate : String) :
    Query.bbox s [xmin, ymin, xmax, ymax] "contains" =
      .ok { s with filter_ := s.filter_ ++ [.obj [("geo_shape", .obj [("_geom", .obj [
        ("shape", .obj [("type", .str "envelope"), ("coordinates",
          .arr [.arr [.num xmin, .num ymax], .arr [.num xmax, .num ymin]])]),
        ("relation", .str "WITHIN")])])]] } ∧
    Query.bbox s [xmin, ymin, xmax, ymax] "overlaps" =
      .ok { s with filter_ := s.filter_ ++ [.obj [("geo_shape", .obj [("_geom", .obj [
        ("shape", .obj [("type", .str "envelope"), ("coordinates",
          .arr [.arr [.num xmin, .num ymax], .arr [.num xmax, .num ymin]])]),
        ("relation", .str "INTERSECTS")])])]] } ∧
    Query.bbox s [xmin, ymin, xmax, ymax] "disjoint" =
      .ok { s with filter_ := s.filter_ ++ [.obj [("geo_shape", .obj [("_geom", .obj [
        ("shape", .obj [("type", .str "envelope"), ("coordinates",
          .arr [.arr [.num xmin, .num ymax], .arr [.num xmax, .num ymin]])]),
        ("relation", .str "DISJOINT")])])]] } ∧
    (predicate ∉ (["contains", "overlaps", "disjoint"] : List String) →
      Query.bbox s [xmin, ymin, xmax, ymax] predicate = .error "KeyError") := by
  refine ⟨rfl, rfl, rfl, fun h => ?_⟩
  simp only [List.mem_cons, List.not_mem_nil, or_false] at h
  push_neg at h
  simp [Query.bbox, bboxPredicates, h.1, h.2.1, h.2.2]

/-- **C8, witness**: the engine-side relation name `within` is not one of
the accepted request predicates, and raises. -/
theorem c8_bbox_predicate_map_witness :
    Query.bbox Query.init [1, 2, 3, 4] "within" = .error "KeyError" :=
  (c8_bbox_predicate_map Query.init 1 2 3 4 "within").2.2.2 (by decide)

/-- **C9.**  For every cardinality value `g`, every total hit count `h`
and every positive `records_per_page`, the normalizer succeeds on a
response with no page hits and reports
`totalPages = ceil(g / records_per_page)` — computed from the dedicated
`group_number` cardinality aggregation, not from the hit count `h`, which
lands (unchanged and independently) in `numberOfResults`; in particular
`g = 0` yields `totalPages = 0`. -/
theorem c9_total_pages (g : Int) (h : Rat) (page rpp : Int) (tsig : Bool)
    (hrpp : 0 < rpp) :
    ∃ out, _parseElasticResponse (mkSearchResponse g h) page rpp tsig = .ok (.obj out) ∧
      getKey out "totalPages" =
        some (.num ((Int.ceil ((g : Rat) / (rpp : Rat)) : Int) : Rat)) ∧
      getKey out "numberOfResults" = some (.num h) ∧
      (g = 0 → getKey out "totalPages" = some (.num 0)) := by
  have hne : ¬(rpp = 0) := by omega
  refine ⟨[("page", .num (page : Rat)),
    ("totalPages", .num ((ceilDivInt ((g : Int) : Rat) rpp : Int) : Rat)),
    ("numberOfResults", .num h), ("data", .arr []),
    ("significantTerms", .obj [("group_number", .arr [])]),
    ("geoJson", .obj [("type", .str "FeatureCollection"), ("features", .arr [])])],
    ?_, ?_, ?_, ?_⟩
  · simp only [_parseElasticResponse, mkSearchResponse, hne, if_false]
    rfl
  · rw [show ceilDivInt ((g : Int) : Rat) rpp =
      Int.ceil ((g : Rat) / (rpp : Rat)) from ceilDivInt_eq _ _ hrpp]
    rfl
  · rfl
  · intro hg
    subst hg
    rw [show ceilDivInt ((0 : Int) : Rat) rpp =
      Int.ceil (((0 : Int) : Rat) / (rpp : Rat)) from ceilDivInt_eq _ _ hrpp]
    norm_num
    rfl

/-- **C9, witness**: 5 groups at 10 per page over 37 member hits. -/
theorem c9_total_pages_witness :
    ∃ out, _parseElasticResponse (mkSearchResponse 5 37) 2 10 false = .ok (.obj out) ∧
      getKey out "totalPages" =
        some (.num ((Int.ceil (((5 : Int) : Rat) / ((10 : Int) : Rat)) : Int) : Rat)) ∧
      getKey out "numberOfResults" = some (.num 37) ∧
      ((5 : Int) = 0 → getKey out "totalPages" = some (.num 0)) :=
  c9_total_pages 5 37 2 10 false (by norm_num)

/-- **C10.**  For a method name that is not an explicitly defined
attribute of the base builder, invoking it records the `(name, body)`
pair (returning the builder for chaining, i.e. the state below), and
compile copies the recorded body verbatim into the payload as a
top-level key; when the same name is recorded twice, the last recorded
body wins. -/
theorem c10_custom_passthrough (s : Query) (name : String) (b1 b2 : JVal)
    (h : name ∉ QueryAttrs) :
    (Query.customCall s name b2).custom_ = s.custom_ ++ [(name, b2)] ∧
    getKey (Query.parse (Query.customCall s name b2)).2 name = some b2 ∧
    getKey (Query.parse (Query.customCall (Query.customCall s name b1)
      name b2)).2 name = some b2 := by
  have hna : ¬(name = "aggs") :=
    fun he => h (he ▸ (by decide : ("aggs" : String) ∈ QueryAttrs))
  refine ⟨rfl, ?_, ?_⟩
  · rw [getKey_parse]
    have hl : lastWrite (Query.customCall s name b2).custom_ name = some b2 :=
      lastWrite_append_last s.custom_ name b2
    simp [Query.parseVal, hl, hna]
  · rw [getKey_parse]
    have hl : lastWrite (Query.customCall (Query.customCall s name b1)
        name b2).custom_ name = some b2 :=
      lastWrite_append_last (s.custom_ ++ [(name, b1)]) name b2
    simp [Query.parseVal, hl, hna]

/-- **C10, witness**: the `collapse` pass-through option used by the
search route. -/
theorem c10_custom_passthrough_witness :
    (Query.customCall Query.init "collapse"
      (JVal.obj [("field", JVal.str "_group")])).custom_ =
        Query.init.custom_ ++ [("collapse", JVal.obj [("field", JVal.str "_group")])] ∧
    getKey (Query.parse (Query.customCall Query.init "collapse"
      (JVal.obj [("field", JVal.str "_group")]))).2 "collapse" =
        some (JVal.obj [("field", JVal.str "_group")]) ∧
    getKey (Query.parse (Query.customCall (Query.customCall Query.init "collapse"
      (JVal.str "first")) "collapse" (JVal.obj [("field", JVal.str "_group")]))).2
      "collapse" = some (JVal.obj [("field", JVal.str "_group")]) :=
  c10_custom_passthrough Query.init "collapse" (JVal.str "first")
    (JVal.obj [("field", JVal.str "_group")]) (by decide)
